import Mathlib

/-!
Shallow embedding of the picoclaw provider-resolution engine, credential
lifecycle flow, and HTTP chat adapter, translated from the Go sources
(`pkg/providers` factory and HTTP provider, `pkg/config` defaults/migration,
`cmd/picoclaw/cmd_auth.go`).  Machine-missing pieces (the `pkg/auth` store
internals and the `Config` accessors that are not under the provided sources)
are modelled from the specification and marked as such in their doc comments.
-/

/-! ## String helpers mirroring the Go `strings` functions used by the code -/

/-- Mirrors `strings.HasPrefix s pre`. -/
def hasPrefixStr (s pre : String) : Bool :=
  pre.data.isPrefixOf s.data

/-- Helper for `containsSub`: does `pat` occur as a contiguous sublist? -/
def containsSubList (pat : List Char) : List Char → Bool
  | [] => pat.isEmpty
  | c :: cs => pat.isPrefixOf (c :: cs) || containsSubList pat cs

/-- Mirrors `strings.Contains s sub`. -/
def containsSub (s sub : String) : Bool :=
  containsSubList sub.data s.data

/-- Mirrors `strings.ToLower` (ASCII case folding, which is all the code relies on). -/
def toLowerStr (s : String) : String :=
  ⟨s.data.map Char.toLower⟩

/-- Mirrors `strings.TrimSpace` (leading and trailing whitespace removed). -/
def trimStr (s : String) : String :=
  ⟨((s.data.dropWhile Char.isWhitespace).reverse.dropWhile Char.isWhitespace).reverse⟩

/-- Mirrors `strings.TrimRight apiBase "/"` as used by `NewHTTPProvider`. -/
def trimRightSlashes (s : String) : String :=
  ⟨(s.data.reverse.dropWhile (fun c => c = '/')).reverse⟩

/-- Splits a character list at the first `'/'`, returning the part before and
after it; `none` when no `'/'` occurs.  This is the loop of `ExtractProtocol`
(`for i := 0; i < len(model); i++ { if model[i] == '/' ... }`) and the
`strings.Index(model, "/")` split in `HTTPProvider.Chat`. -/
def splitFirstSlash : List Char → Option (List Char × List Char)
  | [] => none
  | c :: cs =>
    if c = '/' then some ([], cs)
    else
      match splitFirstSlash cs with
      | some (p, m) => some (c :: p, m)
      | none => none

/-! ## Configuration data model

The `Config` struct itself lives in `pkg/config/config.go`, which is not among
the provided sources; its shape is reconstructed from the fields the provided
code reads (`cfg.Agents.Defaults.{Model,Provider}`, `cfg.ModelList`,
`cfg.Providers.*`, `cfg.WorkspacePath()`), matching the spec's
"Configuration input" description. -/

/-- One configured provider account (`ProviderConfig` in Go): optional API key,
base URL, proxy, auth-method tag, connect-mode tag. -/
structure ProviderConfig where
  apiKey : String := ""
  apiBase : String := ""
  proxy : String := ""
  authMethod : String := ""
  connectMode : String := ""
deriving DecidableEq

/-- The legacy per-family provider fields (`ProvidersConfig` in Go); the family
set is the one the provided sources reference. -/
structure ProvidersConfig where
  anthropic : ProviderConfig := {}
  openai : ProviderConfig := {}
  openrouter : ProviderConfig := {}
  groq : ProviderConfig := {}
  zhipu : ProviderConfig := {}
  vllm : ProviderConfig := {}
  gemini : ProviderConfig := {}
  nvidia : ProviderConfig := {}
  moonshot : ProviderConfig := {}
  shengsuanyun : ProviderConfig := {}
  cerebras : ProviderConfig := {}
  volcengine : ProviderConfig := {}
  deepseek : ProviderConfig := {}
  qwen : ProviderConfig := {}
  ollama : ProviderConfig := {}
  githubCopilot : ProviderConfig := {}
  antigravity : ProviderConfig := {}
deriving DecidableEq

/-- One route-table entry (`ModelConfig` in Go): a logical name, a fully
protocol-qualified model string, and per-account fields. -/
structure ModelConfig where
  modelName : String := ""
  model : String := ""
  apiKey : String := ""
  apiBase : String := ""
  proxy : String := ""
  authMethod : String := ""
  connectMode : String := ""
deriving DecidableEq

/-- Agent defaults; only the fields provider resolution reads are included. -/
structure AgentDefaults where
  workspace : String := ""
  provider : String := ""
  model : String := ""
deriving DecidableEq

structure AgentsConfig where
  defaults : AgentDefaults := {}
deriving DecidableEq

/-- The configuration object consumed by provider resolution. -/
structure Config where
  agents : AgentsConfig := {}
  providers : ProvidersConfig := {}
  modelList : List ModelConfig := []
deriving DecidableEq

/-- Modelled from the spec: `Config.WorkspacePath` is declared in
`pkg/config/config.go` (not among the provided sources); the spec says the
CLI-bridge adapters take "a workspace path taken from configuration". -/
def Config.WorkspacePath (c : Config) : String :=
  c.agents.defaults.workspace

/-- Modelled from the spec: `Config.GetModelConfig` is declared in
`pkg/config/config.go` (not among the provided sources).  Per spec section 4.2
step 1, a route-table entry matches when "its logical name or qualified model
string matches `requestedModel`"; the first matching entry of the ordered list
wins, and a missing match is reported as an error (here `none`). -/
def Config.GetModelConfig (c : Config) (model : String) : Option ModelConfig :=
  c.modelList.find? (fun mc => decide (mc.modelName = model) || decide (mc.model = model))

/-! ## Credential store and lifecycle

`pkg/auth` is not among the provided sources; the store operations and
freshness predicates are modelled from the spec (sections 3, 4.3, 6) and from
how `cmd_auth.go` uses them. -/

/-- One stored OAuth/token record (`auth.AuthCredential`); the expiry is a unix
timestamp with `0` standing for Go's zero time (no expiry recorded). -/
structure AuthCredential where
  provider : String := ""
  accessToken : String := ""
  refreshToken : String := ""
  expiresAt : Int := 0
  accountID : String := ""
  email : String := ""
  projectID : String := ""
  authMethod : String := ""
deriving DecidableEq

/-- The credential store contents: records keyed by provider family name. -/
abbrev AuthStore : Type := List (String × AuthCredential)

/-- Modelled from the spec: `auth.GetCredential` (Credential Store `get`) is in
`pkg/auth`, not among the provided sources; it returns the stored record for a
family or reports its absence (`nil` in Go, `none` here). -/
def GetCredential (store : AuthStore) (family : String) : Option AuthCredential :=
  (store.find? (fun kv => decide (kv.1 = family))).map Prod.snd

/-- Modelled from the spec: `auth.SetCredential` upserts the store entry for a
family — "full replace, not merge". -/
def SetCredential (store : AuthStore) (family : String) (cred : AuthCredential) : AuthStore :=
  if (store.find? (fun kv => decide (kv.1 = family))).isSome then
    store.map (fun kv => if kv.1 = family then (family, cred) else kv)
  else
    store ++ [(family, cred)]

/-- Modelled from the spec: the "fixed refresh-window constant"; spec section 8
fixes it at 5 minutes for the freshness examples. -/
def authRefreshWindow : Int := 300

/-- Modelled from the spec: `cred.IsExpired()` — `expired` is "past expiry";
a credential with no recorded expiry never expires. -/
def AuthCredential.IsExpired (c : AuthCredential) (now : Int) : Bool :=
  decide (c.expiresAt ≠ 0) && decide (c.expiresAt < now)

/-- Modelled from the spec: `cred.NeedsRefresh()` — "credential is
`needs_refresh` when expiry minus now is below the window". -/
def AuthCredential.NeedsRefresh (c : AuthCredential) (now : Int) : Bool :=
  decide (c.expiresAt ≠ 0) && decide (c.expiresAt - now < authRefreshWindow)

/-- Modelled from the spec: `getUsableCredential(family)` (spec section 4.3);
the same flow appears in the provided `authModelsCmd`
(`cmd/picoclaw/cmd_auth.go` lines 336-352): load the stored credential (absence
names the login command), and when it needs refresh and has a refresh token,
attempt the exchange — on success persist and return the replacement, on
failure return the previously stored credential without error.  The network
exchange (`auth.RefreshAccessToken`) is abstracted as the `refresh` argument,
`none` meaning the exchange failed. -/
def getUsableCredential (refresh : AuthCredential → Option AuthCredential) (now : Int)
    (store : AuthStore) (family : String) : AuthStore × Except String AuthCredential :=
  match GetCredential store family with
  | none =>
    (store, .error ("no credentials for " ++ family ++ ". Run: picoclaw auth login --provider " ++ family))
  | some cred =>
    if cred.NeedsRefresh now ∧ cred.refreshToken ≠ "" then
      match refresh cred with
      | some refreshed => (SetCredential store family refreshed, .ok refreshed)
      | none => (store, .ok cred)
    else
      (store, .ok cred)

/-! ## Adapters

The adapter constructors (`NewClaudeProvider`, `NewCodexProviderWithTokenSource`,
`NewClaudeCliProvider`, ...) live in provider files not among the provided
sources; each adapter is represented by a descriptor recording exactly the
arguments the factory passes to its constructor. -/

/-- Token sources handed to the Claude/Codex constructors. -/
inductive TokenSource where
  | claudeOAuth
  | codexOAuth
  | codexCliSrc
deriving DecidableEq

def createClaudeTokenSource : TokenSource := .claudeOAuth

def createCodexTokenSource : TokenSource := .codexOAuth

def CreateCodexCliTokenSource : TokenSource := .codexCliSrc

/-- The HTTP adapter state (`HTTPProvider` in Go).  Go stores the proxy inside
the configured `http.Client`; here it is kept as a field of the descriptor. -/
structure HTTPProvider where
  apiKey : String
  apiBase : String
  proxy : String
deriving DecidableEq

/-- Mirrors `NewHTTPProvider`: the stored base URL has trailing `/` trimmed. -/
def NewHTTPProvider (apiKey apiBase proxy : String) : HTTPProvider :=
  { apiKey := apiKey, apiBase := trimRightSlashes apiBase, proxy := proxy }

/-- The uniform chat adapter (`LLMProvider` interface): one descriptor per
backend variant the factory can construct. -/
inductive LLMProvider where
  | http (p : HTTPProvider)
  | claude (apiKey : String)
  | claudeTok (accessToken : String) (src : TokenSource)
  | codexTok (accessToken accountID : String) (src : TokenSource)
  | claudeCli (workspace : String)
  | codexCli (workspace : String)
  | githubCopilot (apiBase connectMode model : String)
  | antigravity
deriving DecidableEq

/-- `NewClaudeProvider(apiKey)`: Claude SDK adapter from a bare key/token. -/
def NewClaudeProvider (apiKey : String) : LLMProvider := .claude apiKey

def NewClaudeProviderWithTokenSource (accessToken : String) (src : TokenSource) : LLMProvider :=
  .claudeTok accessToken src

def NewCodexProviderWithTokenSource (accessToken accountID : String) (src : TokenSource) : LLMProvider :=
  .codexTok accessToken accountID src

def NewClaudeCliProvider (workspace : String) : LLMProvider := .claudeCli workspace

def NewCodexCliProvider (workspace : String) : LLMProvider := .codexCli workspace

def NewAntigravityProvider : LLMProvider := .antigravity

/-- Modelled from the spec: `NewGitHubCopilotProvider` is not among the
provided sources; the spec says building the local-gateway adapter "may itself
fail", but no claim depends on that failure, so the constructor is modelled as
succeeding with the descriptor of its arguments. -/
def NewGitHubCopilotProvider (apiBase connectMode model : String) : Except String LLMProvider :=
  .ok (.githubCopilot apiBase connectMode model)

/-! ## Protocol identifier parser (`pkg/config/defaults.go`, providers part) -/

/-- Mirrors `ExtractProtocol`: trim whitespace, then split at the first `'/'`;
without a separator the protocol defaults to `"openai"`. -/
def ExtractProtocol (model : String) : String × String :=
  let m := trimStr model
  match splitFirstSlash m.data with
  | some (p, rest) => (⟨p⟩, ⟨rest⟩)
  | none => ("openai", m)

/-- Mirrors `getDefaultAPIBase`. -/
def getDefaultAPIBase (protocol : String) : String :=
  if protocol = "openai" then "https://api.openai.com/v1"
  else if protocol = "openrouter" then "https://openrouter.ai/api/v1"
  else if protocol = "groq" then "https://api.groq.com/openai/v1"
  else if protocol = "zhipu" then "https://open.bigmodel.cn/api/paas/v4"
  else if protocol = "gemini" then "https://generativelanguage.googleapis.com/v1beta"
  else if protocol = "nvidia" then "https://integrate.api.nvidia.com/v1"
  else if protocol = "ollama" then "http://localhost:11434/v1"
  else if protocol = "moonshot" then "https://api.moonshot.cn/v1"
  else if protocol = "shengsuanyun" then "https://router.shengsuanyun.com/api/v1"
  else if protocol = "deepseek" then "https://api.deepseek.com/v1"
  else if protocol = "cerebras" then "https://api.cerebras.ai/v1"
  else if protocol = "volcengine" then "https://ark.cn-beijing.volces.com/api/v3"
  else if protocol = "qwen" then "https://dashscope.aliyuncs.com/compatible-mode/v1"
  else ""

/-- The protocol tags of the first `switch` case of `CreateProviderFromConfig`
("All OpenAI-compatible HTTP providers"). -/
def httpProtocols : List String :=
  ["openai", "openrouter", "groq", "zhipu", "gemini", "nvidia",
   "ollama", "moonshot", "shengsuanyun", "deepseek", "cerebras",
   "volcengine", "vllm", "qwen"]

/-- Mirrors `CreateProviderFromConfig` (`pkg/config/defaults.go`, providers
part): build an adapter from one route-table entry.  The `Option` argument
models the Go `*config.ModelConfig` pointer (nil check included). -/
def CreateProviderFromConfig (cfg? : Option ModelConfig) : Except String (LLMProvider × String) :=
  match cfg? with
  | none => .error "config is nil"
  | some cfg =>
    if cfg.model = "" then .error "model is required"
    else
      let protocol := (ExtractProtocol cfg.model).1
      let modelID := (ExtractProtocol cfg.model).2
      if protocol ∈ httpProtocols then
        if cfg.apiKey = "" ∧ cfg.apiBase = "" then
          .error ("api_key or api_base is required for HTTP-based protocol \"" ++ protocol ++ "\"")
        else
          let apiBase := if cfg.apiBase = "" then getDefaultAPIBase protocol else cfg.apiBase
          .ok (.http (NewHTTPProvider cfg.apiKey apiBase cfg.proxy), modelID)
      else if protocol = "anthropic" then
        if cfg.authMethod = "oauth" ∨ cfg.authMethod = "token" then
          .ok (NewClaudeProvider cfg.apiKey, modelID)
        else
          let apiBase := if cfg.apiBase = "" then "https://api.anthropic.com/v1" else cfg.apiBase
          .ok (.http (NewHTTPProvider cfg.apiKey apiBase cfg.proxy), modelID)
      else if protocol = "antigravity" then
        .ok (NewAntigravityProvider, modelID)
      else if protocol = "claude-cli" ∨ protocol = "claudecli" then
        .ok (NewClaudeCliProvider ".", modelID)
      else if protocol = "codex-cli" ∨ protocol = "codexcli" then
        .ok (NewCodexCliProvider ".", modelID)
      else if protocol = "github-copilot" ∨ protocol = "copilot" then
        let apiBase := if cfg.apiBase = "" then "localhost:4321" else cfg.apiBase
        let connectMode := if cfg.connectMode = "" then "grpc" else cfg.connectMode
        match NewGitHubCopilotProvider apiBase connectMode modelID with
        | .error e => .error e
        | .ok p => .ok (p, modelID)
      else
        .error ("unknown protocol \"" ++ protocol ++ "\" in model \"" ++ cfg.model ++ "\"")

/-! ## Legacy provider resolution (`CreateProvider`, providers factory file)

The Go function first consults the route table, then (falling through) an
explicit legacy provider field, then a model-name heuristic, then the
OpenRouter catch-all, and finally performs the key/base checks before building
the HTTP adapter.  The imperative control flow (early `return` versus falling
through with the mutable `apiKey`/`apiBase`/`proxy`/`model` variables) is
represented by `ResolveStep`. -/

/-- Outcome of one stage of the legacy resolution: either an early `return`
(`done`) or falling through with the current variable values (`cont`). -/
inductive ResolveStep where
  | done (result : Except String (LLMProvider × String))
  | cont (apiKey apiBase proxy model : String)

/-- The Go idiom `apiBase = x; if apiBase == "" { apiBase = dflt }`. -/
def defaultIfEmpty (s dflt : String) : String :=
  if s = "" then dflt else s

/-- Mirrors `createClaudeAuthProvider`: Claude adapter from the stored
`anthropic` OAuth credential; absence is the fatal "run auth login" error.
(The store-load error path of `auth.GetCredential` is outside the model, which
covers the spec's store contract of stored-or-absent.) -/
def createClaudeAuthProvider (store : AuthStore) : Except String LLMProvider :=
  match GetCredential store "anthropic" with
  | none => .error "no credentials for anthropic. Run: picoclaw auth login --provider anthropic"
  | some cred => .ok (NewClaudeProviderWithTokenSource cred.accessToken createClaudeTokenSource)

/-- Mirrors `createCodexAuthProvider`. -/
def createCodexAuthProvider (store : AuthStore) : Except String LLMProvider :=
  match GetCredential store "openai" with
  | none => .error "no credentials for openai. Run: picoclaw auth login --provider openai"
  | some cred => .ok (NewCodexProviderWithTokenSource cred.accessToken cred.accountID createCodexTokenSource)

/-- Mirrors the explicit-provider `switch providerName` of `CreateProvider`
(the `if providerName != ""` guard is equivalent to the switch falling through
for an unmatched name, which the final catch-all branch covers). -/
def legacyExplicit (store : AuthStore) (cfg : Config) (providerName model : String) : ResolveStep :=
  if providerName = "groq" then
    if cfg.providers.groq.apiKey ≠ "" then
      .cont cfg.providers.groq.apiKey
        (defaultIfEmpty cfg.providers.groq.apiBase "https://api.groq.com/openai/v1") "" model
    else .cont "" "" "" model
  else if providerName = "openai" ∨ providerName = "gpt" then
    if cfg.providers.openai.apiKey ≠ "" ∨ cfg.providers.openai.authMethod ≠ "" then
      if cfg.providers.openai.authMethod = "codex-cli" then
        .done (.ok (NewCodexProviderWithTokenSource "" "" CreateCodexCliTokenSource, model))
      else if cfg.providers.openai.authMethod = "oauth" ∨ cfg.providers.openai.authMethod = "token" then
        .done ((createCodexAuthProvider store).map (fun p => (p, model)))
      else
        .cont cfg.providers.openai.apiKey
          (defaultIfEmpty cfg.providers.openai.apiBase "https://api.openai.com/v1") "" model
    else .cont "" "" "" model
  else if providerName = "anthropic" ∨ providerName = "claude" then
    if cfg.providers.anthropic.apiKey ≠ "" ∨ cfg.providers.anthropic.authMethod ≠ "" then
      if cfg.providers.anthropic.authMethod = "oauth" ∨ cfg.providers.anthropic.authMethod = "token" then
        .done ((createClaudeAuthProvider store).map (fun p => (p, model)))
      else
        .cont cfg.providers.anthropic.apiKey
          (defaultIfEmpty cfg.providers.anthropic.apiBase "https://api.anthropic.com/v1") "" model
    else .cont "" "" "" model
  else if providerName = "openrouter" then
    if cfg.providers.openrouter.apiKey ≠ "" then
      .cont cfg.providers.openrouter.apiKey
        (if cfg.providers.openrouter.apiBase ≠ "" then cfg.providers.openrouter.apiBase
         else "https://openrouter.ai/api/v1") "" model
    else .cont "" "" "" model
  else if providerName = "zhipu" ∨ providerName = "glm" then
    if cfg.providers.zhipu.apiKey ≠ "" then
      .cont cfg.providers.zhipu.apiKey
        (defaultIfEmpty cfg.providers.zhipu.apiBase "https://open.bigmodel.cn/api/paas/v4") "" model
    else .cont "" "" "" model
  else if providerName = "gemini" ∨ providerName = "google" then
    if cfg.providers.gemini.apiKey ≠ "" then
      .cont cfg.providers.gemini.apiKey
        (defaultIfEmpty cfg.providers.gemini.apiBase "https://generativelanguage.googleapis.com/v1beta") "" model
    else .cont "" "" "" model
  else if providerName = "vllm" then
    if cfg.providers.vllm.apiBase ≠ "" then
      .cont cfg.providers.vllm.apiKey cfg.providers.vllm.apiBase "" model
    else .cont "" "" "" model
  else if providerName = "shengsuanyun" then
    if cfg.providers.shengsuanyun.apiKey ≠ "" then
      .cont cfg.providers.shengsuanyun.apiKey
        (defaultIfEmpty cfg.providers.shengsuanyun.apiBase "https://router.shengsuanyun.com/api/v1") "" model
    else .cont "" "" "" model
  else if providerName = "claude-cli" ∨ providerName = "claudecode" ∨ providerName = "claude-code" then
    .done (.ok (NewClaudeCliProvider (defaultIfEmpty cfg.WorkspacePath "."), model))
  else if providerName = "codex-cli" ∨ providerName = "codex-code" then
    .done (.ok (NewCodexCliProvider (defaultIfEmpty cfg.WorkspacePath "."), model))
  else if providerName = "cerebras" then
    if cfg.providers.cerebras.apiKey ≠ "" then
      .cont cfg.providers.cerebras.apiKey
        (defaultIfEmpty cfg.providers.cerebras.apiBase "https://api.cerebras.ai/v1") "" model
    else .cont "" "" "" model
  else if providerName = "deepseek" then
    if cfg.providers.deepseek.apiKey ≠ "" then
      .cont cfg.providers.deepseek.apiKey
        (defaultIfEmpty cfg.providers.deepseek.apiBase "https://api.deepseek.com/v1") ""
        (if model ≠ "deepseek-chat" ∧ model ≠ "deepseek-reasoner" then "deepseek-chat" else model)
    else .cont "" "" "" model
  else if providerName = "qwen" then
    if cfg.providers.qwen.apiKey ≠ "" then
      .cont cfg.providers.qwen.apiKey
        (defaultIfEmpty cfg.providers.qwen.apiBase "https://dashscope.aliyuncs.com/compatible-mode/v1") "" model
    else .cont "" "" "" model
  else if providerName = "github_copilot" ∨ providerName = "copilot" then
    .done ((NewGitHubCopilotProvider
      (if cfg.providers.githubCopilot.apiBase ≠ "" then cfg.providers.githubCopilot.apiBase
       else "localhost:4321")
      cfg.providers.githubCopilot.connectMode model).map (fun p => (p, model)))
  else if providerName = "antigravity" ∨ providerName = "google-antigravity" then
    .done (.ok (NewAntigravityProvider, model))
  else if providerName = "volcengine" ∨ providerName = "doubao" then
    if cfg.providers.volcengine.apiKey ≠ "" then
      .cont cfg.providers.volcengine.apiKey
        (defaultIfEmpty cfg.providers.volcengine.apiBase "https://ark.cn-beijing.volces.com/api/v3") "" model
    else .cont "" "" "" model
  else .cont "" "" "" model

/-- Mirrors the model-name heuristic `switch` ("Fallback: detect provider from
model name"); `lowerModel` is the lowercase of the originally requested model,
computed before the explicit-provider step, exactly as in the source. -/
def heuristicDetect (store : AuthStore) (cfg : Config) (lowerModel model : String) : ResolveStep :=
  if (containsSub lowerModel "kimi" ∨ containsSub lowerModel "moonshot" ∨ hasPrefixStr model "moonshot/")
      ∧ cfg.providers.moonshot.apiKey ≠ "" then
    .cont cfg.providers.moonshot.apiKey
      (defaultIfEmpty cfg.providers.moonshot.apiBase "https://api.moonshot.cn/v1")
      cfg.providers.moonshot.proxy model
  else if hasPrefixStr model "openrouter/" ∨ hasPrefixStr model "anthropic/" ∨ hasPrefixStr model "openai/"
      ∨ hasPrefixStr model "meta-llama/" ∨ hasPrefixStr model "deepseek/" ∨ hasPrefixStr model "google/" then
    .cont cfg.providers.openrouter.apiKey
      (if cfg.providers.openrouter.apiBase ≠ "" then cfg.providers.openrouter.apiBase
       else "https://openrouter.ai/api/v1")
      cfg.providers.openrouter.proxy model
  else if (containsSub lowerModel "claude" ∨ hasPrefixStr model "anthropic/")
      ∧ (cfg.providers.anthropic.apiKey ≠ "" ∨ cfg.providers.anthropic.authMethod ≠ "") then
    if cfg.providers.anthropic.authMethod = "oauth" ∨ cfg.providers.anthropic.authMethod = "token" then
      .done ((createClaudeAuthProvider store).map (fun p => (p, model)))
    else
      .cont cfg.providers.anthropic.apiKey
        (defaultIfEmpty cfg.providers.anthropic.apiBase "https://api.anthropic.com/v1")
        cfg.providers.anthropic.proxy model
  else if (containsSub lowerModel "gpt" ∨ hasPrefixStr model "openai/")
      ∧ (cfg.providers.openai.apiKey ≠ "" ∨ cfg.providers.openai.authMethod ≠ "") then
    if cfg.providers.openai.authMethod = "oauth" ∨ cfg.providers.openai.authMethod = "token" then
      .done ((createCodexAuthProvider store).map (fun p => (p, model)))
    else
      .cont cfg.providers.openai.apiKey
        (defaultIfEmpty cfg.providers.openai.apiBase "https://api.openai.com/v1")
        cfg.providers.openai.proxy model
  else if (containsSub lowerModel "gemini" ∨ hasPrefixStr model "google/")
      ∧ cfg.providers.gemini.apiKey ≠ "" then
    .cont cfg.providers.gemini.apiKey
      (defaultIfEmpty cfg.providers.gemini.apiBase "https://generativelanguage.googleapis.com/v1beta")
      cfg.providers.gemini.proxy model
  else if (containsSub lowerModel "glm" ∨ containsSub lowerModel "zhipu" ∨ containsSub lowerModel "zai")
      ∧ cfg.providers.zhipu.apiKey ≠ "" then
    .cont cfg.providers.zhipu.apiKey
      (defaultIfEmpty cfg.providers.zhipu.apiBase "https://open.bigmodel.cn/api/paas/v4")
      cfg.providers.zhipu.proxy model
  else if (containsSub lowerModel "groq" ∨ hasPrefixStr model "groq/")
      ∧ cfg.providers.groq.apiKey ≠ "" then
    .cont cfg.providers.groq.apiKey
      (defaultIfEmpty cfg.providers.groq.apiBase "https://api.groq.com/openai/v1")
      cfg.providers.groq.proxy model
  else if (containsSub lowerModel "qwen" ∨ hasPrefixStr model "qwen/")
      ∧ cfg.providers.qwen.apiKey ≠ "" then
    .cont cfg.providers.qwen.apiKey
      (defaultIfEmpty cfg.providers.qwen.apiBase "https://dashscope.aliyuncs.com/compatible-mode/v1")
      cfg.providers.qwen.proxy model
  else if (containsSub lowerModel "nvidia" ∨ hasPrefixStr model "nvidia/")
      ∧ cfg.providers.nvidia.apiKey ≠ "" then
    .cont cfg.providers.nvidia.apiKey
      (defaultIfEmpty cfg.providers.nvidia.apiBase "https://integrate.api.nvidia.com/v1")
      cfg.providers.nvidia.proxy model
  else if (containsSub lowerModel "cerebras" ∨ hasPrefixStr model "cerebras/")
      ∧ cfg.providers.cerebras.apiKey ≠ "" then
    .cont cfg.providers.cerebras.apiKey
      (defaultIfEmpty cfg.providers.cerebras.apiBase "https://api.cerebras.ai/v1")
      cfg.providers.cerebras.proxy model
  else if (containsSub lowerModel "ollama" ∨ hasPrefixStr model "ollama/")
      ∧ cfg.providers.ollama.apiKey ≠ "" then
    .cont cfg.providers.ollama.apiKey
      (defaultIfEmpty cfg.providers.ollama.apiBase "http://localhost:11434/v1")
      cfg.providers.ollama.proxy model
  else if (containsSub lowerModel "doubao" ∨ hasPrefixStr lowerModel "doubao" ∨ containsSub lowerModel "volcengine")
      ∧ cfg.providers.volcengine.apiKey ≠ "" then
    .cont cfg.providers.volcengine.apiKey
      (defaultIfEmpty cfg.providers.volcengine.apiBase "https://ark.cn-beijing.volces.com/api/v3")
      cfg.providers.volcengine.proxy model
  else if cfg.providers.vllm.apiBase ≠ "" then
    .cont cfg.providers.vllm.apiKey cfg.providers.vllm.apiBase cfg.providers.vllm.proxy model
  else if cfg.providers.openrouter.apiKey ≠ "" then
    .cont cfg.providers.openrouter.apiKey
      (if cfg.providers.openrouter.apiBase ≠ "" then cfg.providers.openrouter.apiBase
       else "https://openrouter.ai/api/v1")
      cfg.providers.openrouter.proxy model
  else
    .done (.error ("no API key configured for model: " ++ model))

/-- Mirrors the final checks of `CreateProvider` (source lines 340-348): empty
key is fatal unless the model is `bedrock/`-prefixed, empty base is fatal, and
otherwise the HTTP adapter is built. -/
def finalize (apiKey apiBase proxy model : String) : Except String (LLMProvider × String) :=
  if apiKey = "" ∧ ¬ hasPrefixStr model "bedrock/" then
    .error ("no API key configured for provider (model: " ++ model ++ ")")
  else if apiBase = "" then
    .error ("no API base configured for provider (model: " ++ model ++ ")")
  else
    .ok (.http (NewHTTPProvider apiKey apiBase proxy), model)

/-- Continuation after the explicit-provider step: an early `return` is passed
through; otherwise, when both key and base are still empty, the model-name
heuristic runs (source line 212, `if apiKey == "" && apiBase == ""`), and the
final checks follow. -/
def afterExplicit (store : AuthStore) (cfg : Config) (lowerModel : String) :
    ResolveStep → Except String (LLMProvider × String)
  | .done r => r
  | .cont apiKey apiBase proxy model1 =>
    if apiKey = "" ∧ apiBase = "" then
      match heuristicDetect store cfg lowerModel model1 with
      | .done r => r
      | .cont k b px m2 => finalize k b px m2
    else finalize apiKey apiBase proxy model1

/-- The legacy portion of `CreateProvider` (everything after the `model_list`
attempt): explicit provider, then — when both key and base are still empty —
the model-name heuristic, then the final checks.  The deprecation warning
(`fmt.Println`) has no effect on the returned values and is omitted. -/
def createProviderLegacy (store : AuthStore) (cfg : Config) (model : String) :
    Except String (LLMProvider × String) :=
  let providerName := toLowerStr cfg.agents.defaults.provider
  let lowerModel := toLowerStr model
  afterExplicit store cfg lowerModel
    (if providerName ≠ "" then legacyExplicit store cfg providerName model
     else .cont "" "" "" model)

/-- Mirrors `CreateProvider`: route-table lookup first (a matching entry is
built by `CreateProviderFromConfig`, whose failure is wrapped and returned, not
a fallback), then the legacy resolution. -/
def CreateProvider (store : AuthStore) (cfg : Config) : Except String (LLMProvider × String) :=
  let model := cfg.agents.defaults.model
  if cfg.modelList.length > 0 then
    match Config.GetModelConfig cfg model with
    | some modelCfg =>
      match CreateProviderFromConfig (some modelCfg) with
      | .error e => .error ("failed to create provider from model_list: " ++ e)
      | .ok r => .ok r
    | none => createProviderLegacy store cfg model
  else createProviderLegacy store cfg model

/-! ## HTTP chat adapter (`HTTPProvider.Chat` / `parseResponse`)

The wire exchange is embedded by passing the received wire response as an
argument: `WireResponse` carries the HTTP status, the raw body bytes as read by
`io.ReadAll`, and — since JSON decoding is done by the external `encoding/json`
package, not by repository code — the result of unmarshalling the body into
the response envelope (`none` = malformed envelope). -/

/-- A chat message; its fields are opaque to the adapter (it is serialized
verbatim), so a minimal shape suffices. -/
structure Message where
  role : String := ""
  content : String := ""
deriving DecidableEq

/-- A tool schema entry; opaque to the adapter, serialized verbatim. -/
structure ToolDefinition where
  name : String := ""
  description : String := ""
deriving DecidableEq

/-- The dynamic `options map[string]interface{}`: the adapter reads only
`options["max_tokens"].(int)` and `options["temperature"].(float64)`;
a `none` field models an absent key or a failed type assertion. -/
structure ChatOptions where
  maxTokens : Option Int := none
  temperature : Option Float := none

/-- Token usage as reported by the wire payload.  The `UsageInfo` struct is in
a providers file not among the provided sources; the field set follows the
spec's "token usage if the wire payload included it" and is carried opaquely. -/
structure UsageInfo where
  promptTokens : Nat := 0
  completionTokens : Nat := 0
  totalTokens : Nat := 0
deriving DecidableEq

/-- The decoded `function` object of a wire tool call.  `argumentsParsed`
records the outcome of `json.Unmarshal` on the `arguments` string (external
JSON decoding): `some m` on success, `none` on parse failure. -/
structure WireFunction where
  name : String := ""
  arguments : String := ""
  thoughtSignature : String := ""
  argumentsParsed : Option (List (String × String)) := none
deriving DecidableEq

structure WireToolCall where
  id : String := ""
  type : String := ""
  function : Option WireFunction := none
deriving DecidableEq

structure WireMessage where
  content : String := ""
  toolCalls : List WireToolCall := []
deriving DecidableEq

structure WireChoice where
  message : WireMessage := {}
  finishReason : String := ""
deriving DecidableEq

/-- The decoded response envelope (`apiResponse` in `parseResponse`). -/
structure ApiResponse where
  choices : List WireChoice := []
  usage : Option UsageInfo := none
deriving DecidableEq

/-- A wire response as observed by `Chat` after `httpClient.Do` and
`io.ReadAll`: HTTP status, raw body, and the body's decoding as the envelope. -/
structure WireResponse where
  status : Nat
  rawBody : String
  decoded : Option ApiResponse
deriving DecidableEq

/-- The normalized function-call record (`FunctionCall`). -/
structure FunctionCall where
  name : String := ""
  arguments : String := ""
  thoughtSignature : String := ""
deriving DecidableEq

/-- A normalized tool call (`ToolCall`); `arguments` is the best-effort parsed
argument mapping (string-valued here, which is all the code distinguishes). -/
structure ToolCall where
  id : String := ""
  type : String := ""
  function : Option FunctionCall := none
  name : String := ""
  arguments : List (String × String) := []
deriving DecidableEq

/-- The canonical chat result (`LLMResponse`). -/
structure LLMResponse where
  content : String := ""
  toolCalls : List ToolCall := []
  finishReason : String := ""
  usage : Option UsageInfo := none
deriving DecidableEq

/-- Mirrors the prefix-stripping step of `Chat` (source lines 402-408): when
the model string has a `/` and the segment before it is one of the listed
families, drop that segment; otherwise leave the model string untouched. -/
def stripProviderPrefix (model : String) : String :=
  match splitFirstSlash model.data with
  | some (pre, rest) =>
    let pfx : String := ⟨pre⟩
    if pfx = "moonshot" ∨ pfx = "nvidia" ∨ pfx = "groq" ∨ pfx = "ollama"
        ∨ pfx = "qwen" ∨ pfx = "cerebras" then
      (⟨rest⟩ : String)
    else model
  | none => model

/-- Mirrors the token-limit field selection (source lines 420-427): under the
generic name `max_tokens` unless the lowercased model mentions `glm` or `o1`,
which use `max_completion_tokens`.  Returns `(max_tokens, max_completion_tokens)`. -/
def chatMaxTokensField (model : String) (options : ChatOptions) : Option Int × Option Int :=
  match options.maxTokens with
  | some n =>
    let lm := toLowerStr model
    if containsSub lm "glm" ∨ containsSub lm "o1" then (none, some n) else (some n, none)
  | none => (none, none)

/-- Mirrors the temperature handling (source lines 429-437): Kimi k2 models
only support temperature 1, everything else passes through verbatim. -/
def chatTemperatureField (model : String) (options : ChatOptions) : Option Float :=
  match options.temperature with
  | some t =>
    let lm := toLowerStr model
    if containsSub lm "kimi" ∧ containsSub lm "k2" then some 1.0 else some t
  | none => none

/-- The wire request body (`requestBody`); `toolChoiceAuto` records whether the
`tools` and `tool_choice = "auto"` fields were included. -/
structure ChatRequest where
  model : String
  messages : List Message
  tools : List ToolDefinition
  toolChoiceAuto : Bool
  maxTokens : Option Int
  maxCompletionTokens : Option Int
  temperature : Option Float

/-- Mirrors the request composition of `Chat` (source lines 402-437). -/
def buildChatRequest (messages : List Message) (tools : List ToolDefinition)
    (model : String) (options : ChatOptions) : ChatRequest :=
  let m := stripProviderPrefix model
  { model := m
    messages := messages
    tools := tools
    toolChoiceAuto := decide (tools.length > 0)
    maxTokens := (chatMaxTokensField m options).1
    maxCompletionTokens := (chatMaxTokensField m options).2
    temperature := chatTemperatureField m options }

/-- The transport-error message of `Chat` for a non-OK wire status
(`fmt.Errorf("API request failed:\n  Status: %d\n  Body:   %s", ...)`). -/
def apiFailureMessage (status : Nat) (body : String) : String :=
  "API request failed:\n  Status: " ++ toString status ++ "\n  Body:   " ++ body

/-- Mirrors the tool-call normalization loop of `parseResponse` (source lines
505-534): a missing `function` object degrades to empty strings, a non-empty
argument string that fails to parse degrades to a single `raw` entry, and the
`FunctionCall` record is always populated. -/
def convertToolCall (tc : WireToolCall) : ToolCall :=
  let name := match tc.function with | some f => f.name | none => ""
  let thoughtSignature := match tc.function with | some f => f.thoughtSignature | none => ""
  let argsStr := match tc.function with | some f => f.arguments | none => ""
  let args : List (String × String) :=
    match tc.function with
    | some f =>
      if f.arguments ≠ "" then
        match f.argumentsParsed with
        | some m => m
        | none => [("raw", f.arguments)]
      else []
    | none => []
  { id := tc.id
    type := tc.type
    function := some { name := name, arguments := argsStr, thoughtSignature := thoughtSignature }
    name := name
    arguments := args }

/-- Mirrors `HTTPProvider.parseResponse`: a body that fails to unmarshal is a
fatal decode error; an empty choice list yields the empty-content stop result;
otherwise the first choice is normalized. -/
def HTTPProvider.parseResponse (_p : HTTPProvider) (decoded : Option ApiResponse) :
    Except String LLMResponse :=
  match decoded with
  | none => .error "failed to unmarshal response"
  | some r =>
    match r.choices with
    | [] => .ok { content := "", finishReason := "stop" }
    | choice :: _ =>
      .ok { content := choice.message.content
            toolCalls := choice.message.toolCalls.map convertToolCall
            finishReason := choice.finishReason
            usage := r.usage }

/-- Mirrors `HTTPProvider.Chat` given the wire response that came back: missing
base URL is rejected up front, the request is composed, a non-OK
(`!= http.StatusOK`) status fails with the status/body transport error, and an
OK status is parsed.  Marshalling, request construction and transport errors
are outside the model (the response argument presumes an answered request). -/
def HTTPProvider.Chat (p : HTTPProvider) (messages : List Message)
    (tools : List ToolDefinition) (model : String) (options : ChatOptions)
    (resp : WireResponse) : Except String LLMResponse :=
  if p.apiBase = "" then .error "API base not configured"
  else
    let _req := buildChatRequest messages tools model options
    if resp.status ≠ 200 then
      .error (apiFailureMessage resp.status resp.rawBody)
    else
      p.parseResponse resp.decoded

/-! ## Theorems

First, helper lemmas about the resolution pipeline: apart from the legacy
`deepseek` case, every stage returns the model string it was handed. -/

/-- A resolution stage leaves the model string unchanged: any `cont` carries
it verbatim and any early success returns it verbatim. -/
def stepModelUnchanged (model : String) : ResolveStep → Prop
  | .done (.ok (_, m)) => m = model
  | .done (.error _) => True
  | .cont _ _ _ m => m = model

theorem legacyExplicit_model (store : AuthStore) (cfg : Config) (pn model : String)
    (hpn : pn ≠ "deepseek") :
    stepModelUnchanged model (legacyExplicit store cfg pn model) := by
  rw [legacyExplicit]
  by_cases h1 : pn = "groq"
  · rw [if_pos h1]; split_ifs <;> exact rfl
  rw [if_neg h1]
  by_cases h2 : pn = "openai" ∨ pn = "gpt"
  · rw [if_pos h2]
    split_ifs <;> try exact rfl
    cases hE : createCodexAuthProvider store <;> first | exact True.intro | exact rfl
  rw [if_neg h2]
  by_cases h3 : pn = "anthropic" ∨ pn = "claude"
  · rw [if_pos h3]
    split_ifs <;> try exact rfl
    cases hE : createClaudeAuthProvider store <;> first | exact True.intro | exact rfl
  rw [if_neg h3]
  by_cases h4 : pn = "openrouter"
  · rw [if_pos h4]; split_ifs <;> exact rfl
  rw [if_neg h4]
  by_cases h5 : pn = "zhipu" ∨ pn = "glm"
  · rw [if_pos h5]; split_ifs <;> exact rfl
  rw [if_neg h5]
  by_cases h6 : pn = "gemini" ∨ pn = "google"
  · rw [if_pos h6]; split_ifs <;> exact rfl
  rw [if_neg h6]
  by_cases h7 : pn = "vllm"
  · rw [if_pos h7]; split_ifs <;> exact rfl
  rw [if_neg h7]
  by_cases h8 : pn = "shengsuanyun"
  · rw [if_pos h8]; split_ifs <;> exact rfl
  rw [if_neg h8]
  by_cases h9 : pn = "claude-cli" ∨ pn = "claudecode" ∨ pn = "claude-code"
  · rw [if_pos h9]; exact rfl
  rw [if_neg h9]
  by_cases h10 : pn = "codex-cli" ∨ pn = "codex-code"
  · rw [if_pos h10]; exact rfl
  rw [if_neg h10]
  by_cases h11 : pn = "cerebras"
  · rw [if_pos h11]; split_ifs <;> exact rfl
  rw [if_neg h11]
  by_cases h12 : pn = "deepseek"
  · exact absurd h12 hpn
  rw [if_neg h12]
  by_cases h13 : pn = "qwen"
  · rw [if_pos h13]; split_ifs <;> exact rfl
  rw [if_neg h13]
  by_cases h14 : pn = "github_copilot" ∨ pn = "copilot"
  · rw [if_pos h14]; exact rfl
  rw [if_neg h14]
  by_cases h15 : pn = "antigravity" ∨ pn = "google-antigravity"
  · rw [if_pos h15]; exact rfl
  rw [if_neg h15]
  by_cases h16 : pn = "volcengine" ∨ pn = "doubao"
  · rw [if_pos h16]; split_ifs <;> exact rfl
  rw [if_neg h16]
  exact rfl

theorem heuristicDetect_model (store : AuthStore) (cfg : Config) (lm model : String) :
    stepModelUnchanged model (heuristicDetect store cfg lm model) := by
  rw [heuristicDetect]
  by_cases h1 : (containsSub lm "kimi" ∨ containsSub lm "moonshot" ∨ hasPrefixStr model "moonshot/")
      ∧ cfg.providers.moonshot.apiKey ≠ ""
  · rw [if_pos h1]; exact rfl
  rw [if_neg h1]
  by_cases h2 : hasPrefixStr model "openrouter/" ∨ hasPrefixStr model "anthropic/" ∨ hasPrefixStr model "openai/"
      ∨ hasPrefixStr model "meta-llama/" ∨ hasPrefixStr model "deepseek/" ∨ hasPrefixStr model "google/"
  · rw [if_pos h2]; exact rfl
  rw [if_neg h2]
  by_cases h3 : (containsSub lm "claude" ∨ hasPrefixStr model "anthropic/")
      ∧ (cfg.providers.anthropic.apiKey ≠ "" ∨ cfg.providers.anthropic.authMethod ≠ "")
  · rw [if_pos h3]
    split_ifs <;> try exact rfl
    cases hE : createClaudeAuthProvider store <;> first | exact True.intro | exact rfl
  rw [if_neg h3]
  by_cases h4 : (containsSub lm "gpt" ∨ hasPrefixStr model "openai/")
      ∧ (cfg.providers.openai.apiKey ≠ "" ∨ cfg.providers.openai.authMethod ≠ "")
  · rw [if_pos h4]
    split_ifs <;> try exact rfl
    cases hE : createCodexAuthProvider store <;> first | exact True.intro | exact rfl
  rw [if_neg h4]
  by_cases h5 : (containsSub lm "gemini" ∨ hasPrefixStr model "google/") ∧ cfg.providers.gemini.apiKey ≠ ""
  · rw [if_pos h5]; exact rfl
  rw [if_neg h5]
  by_cases h6 : (containsSub lm "glm" ∨ containsSub lm "zhipu" ∨ containsSub lm "zai")
      ∧ cfg.providers.zhipu.apiKey ≠ ""
  · rw [if_pos h6]; exact rfl
  rw [if_neg h6]
  by_cases h7 : (containsSub lm "groq" ∨ hasPrefixStr model "groq/") ∧ cfg.providers.groq.apiKey ≠ ""
  · rw [if_pos h7]; exact rfl
  rw [if_neg h7]
  by_cases h8 : (containsSub lm "qwen" ∨ hasPrefixStr model "qwen/") ∧ cfg.providers.qwen.apiKey ≠ ""
  · rw [if_pos h8]; exact rfl
  rw [if_neg h8]
  by_cases h9 : (containsSub lm "nvidia" ∨ hasPrefixStr model "nvidia/") ∧ cfg.providers.nvidia.apiKey ≠ ""
  · rw [if_pos h9]; exact rfl
  rw [if_neg h9]
  by_cases h10 : (containsSub lm "cerebras" ∨ hasPrefixStr model "cerebras/") ∧ cfg.providers.cerebras.apiKey ≠ ""
  · rw [if_pos h10]; exact rfl
  rw [if_neg h10]
  by_cases h11 : (containsSub lm "ollama" ∨ hasPrefixStr model "ollama/") ∧ cfg.providers.ollama.apiKey ≠ ""
  · rw [if_pos h11]; exact rfl
  rw [if_neg h11]
  by_cases h12 : (containsSub lm "doubao" ∨ hasPrefixStr lm "doubao" ∨ containsSub lm "volcengine")
      ∧ cfg.providers.volcengine.apiKey ≠ ""
  · rw [if_pos h12]; exact rfl
  rw [if_neg h12]
  by_cases h13 : cfg.providers.vllm.apiBase ≠ ""
  · rw [if_pos h13]; exact rfl
  rw [if_neg h13]
  by_cases h14 : cfg.providers.openrouter.apiKey ≠ ""
  · rw [if_pos h14]; exact rfl
  rw [if_neg h14]
  exact True.intro

theorem finalize_model (k b px m : String) (p : LLMProvider) (m2 : String)
    (h : finalize k b px m = .ok (p, m2)) : m2 = m := by
  rw [finalize] at h
  split_ifs at h
  simp_all

theorem afterExplicit_model (store : AuthStore) (cfg : Config) (lm model : String)
    (step : ResolveStep) (p : LLMProvider) (m : String)
    (hs : stepModelUnchanged model step)
    (h : afterExplicit store cfg lm step = .ok (p, m)) : m = model := by
  cases step with
  | done r =>
    cases r with
    | error e => simp [afterExplicit] at h
    | ok pr =>
      obtain ⟨q, m1⟩ := pr
      have hm1 : m1 = model := hs
      have h2 : Except.ok (ε := String) (q, m1) = Except.ok (p, m) := h
      injection h2 with h3
      rw [← hm1]
      exact (congrArg Prod.snd h3).symm
  | cont k b px m1 =>
    have hm1 : m1 = model := hs
    by_cases hkb : k = "" ∧ b = ""
    · rw [afterExplicit, if_pos hkb] at h
      have hH := heuristicDetect_model store cfg lm m1
      cases hstep : heuristicDetect store cfg lm m1 with
      | done r =>
        rw [hstep] at h hH
        cases r with
        | error e => simp at h
        | ok pr =>
          obtain ⟨q, m2⟩ := pr
          have hm2 : m2 = m1 := hH
          have h2 : Except.ok (ε := String) (q, m2) = Except.ok (p, m) := h
          injection h2 with h3
          rw [← hm1, ← hm2]
          exact (congrArg Prod.snd h3).symm
      | cont k2 b2 px2 m2 =>
        rw [hstep] at h hH
        have hm2 : m2 = m1 := hH
        exact ((finalize_model _ _ _ _ _ _ h).trans hm2).trans hm1
    · rw [afterExplicit, if_neg hkb] at h
      exact (finalize_model _ _ _ _ _ _ h).trans hm1

theorem createProviderLegacy_model (store : AuthStore) (cfg : Config) (model : String)
    (p : LLMProvider) (m : String)
    (hpn : toLowerStr cfg.agents.defaults.provider ≠ "deepseek")
    (h : createProviderLegacy store cfg model = .ok (p, m)) : m = model := by
  simp only [createProviderLegacy] at h
  by_cases hne : toLowerStr cfg.agents.defaults.provider ≠ ""
  · rw [if_pos hne] at h
    exact afterExplicit_model _ _ _ _ _ _ _
      (legacyExplicit_model store cfg _ model hpn) h
  · rw [if_neg hne] at h
    exact afterExplicit_model _ _ _ _ _ _ _
      (show stepModelUnchanged model (ResolveStep.cont "" "" "" model) from rfl) h

/-- Claim C9: with the legacy explicit provider `deepseek`, a non-empty
DeepSeek key and a requested model outside {deepseek-chat, deepseek-reasoner},
resolution silently returns model id `deepseek-chat` (first conjunct), while
for every other legacy explicit provider a successful legacy resolution
returns the requested model id unchanged (second conjunct). -/
theorem c9_deepseek_rewrites_model_id
    (storeA storeB : AuthStore) (cfgA cfgB : Config) (p : LLMProvider) (m : String)
    (hA0 : cfgA.modelList = [])
    (hAp : toLowerStr cfgA.agents.defaults.provider = "deepseek")
    (hAkey : cfgA.providers.deepseek.apiKey ≠ "")
    (hA3 : cfgA.agents.defaults.model ≠ "deepseek-chat")
    (hA4 : cfgA.agents.defaults.model ≠ "deepseek-reasoner")
    (hB0 : cfgB.modelList = [])
    (hBp : toLowerStr cfgB.agents.defaults.provider ≠ "deepseek") :
    CreateProvider storeA cfgA =
      .ok (.http (NewHTTPProvider cfgA.providers.deepseek.apiKey
            (defaultIfEmpty cfgA.providers.deepseek.apiBase "https://api.deepseek.com/v1") ""),
           "deepseek-chat") ∧
    (CreateProvider storeB cfgB = .ok (p, m) → m = cfgB.agents.defaults.model) := by
  constructor
  · simp only [CreateProvider, hA0, List.length_nil]
    rw [if_neg (by decide : ¬(0:Nat) > 0)]
    simp only [createProviderLegacy, hAp]
    rw [if_pos (by decide : ("deepseek":String) ≠ "")]
    rw [legacyExplicit]
    rw [if_neg (by decide : ¬("deepseek":String) = "groq")]
    rw [if_neg (by decide : ¬(("deepseek":String) = "openai" ∨ ("deepseek":String) = "gpt"))]
    rw [if_neg (by decide : ¬(("deepseek":String) = "anthropic" ∨ ("deepseek":String) = "claude"))]
    rw [if_neg (by decide : ¬("deepseek":String) = "openrouter")]
    rw [if_neg (by decide : ¬(("deepseek":String) = "zhipu" ∨ ("deepseek":String) = "glm"))]
    rw [if_neg (by decide : ¬(("deepseek":String) = "gemini" ∨ ("deepseek":String) = "google"))]
    rw [if_neg (by decide : ¬("deepseek":String) = "vllm")]
    rw [if_neg (by decide : ¬("deepseek":String) = "shengsuanyun")]
    rw [if_neg (by decide :
      ¬(("deepseek":String) = "claude-cli" ∨ ("deepseek":String) = "claudecode"
        ∨ ("deepseek":String) = "claude-code"))]
    rw [if_neg (by decide : ¬(("deepseek":String) = "codex-cli" ∨ ("deepseek":String) = "codex-code"))]
    rw [if_neg (by decide : ¬("deepseek":String) = "cerebras")]
    rw [if_pos (rfl : ("deepseek":String) = "deepseek")]
    rw [if_pos hAkey]
    rw [if_pos ⟨hA3, hA4⟩]
    have hb : defaultIfEmpty cfgA.providers.deepseek.apiBase "https://api.deepseek.com/v1" ≠ "" := by
      rw [defaultIfEmpty]; split_ifs with hbb
      · decide
      · exact hbb
    rw [afterExplicit]
    rw [if_neg (fun hc => hAkey hc.1)]
    rw [finalize]
    rw [if_neg (fun hc => hAkey hc.1)]
    rw [if_neg hb]
  · intro hok
    simp only [CreateProvider, hB0, List.length_nil] at hok
    rw [if_neg (by decide : ¬(0:Nat) > 0)] at hok
    exact createProviderLegacy_model storeB cfgB _ p m hBp hok

/-- Concrete configuration for the first conjunct of Claim C9's witness:
explicit provider `DeepSeek` (case-insensitive), a DeepSeek key, and requested
model `gpt-4o`. -/
def cfgC9deepseek : Config :=
  { agents := { defaults := { provider := "DeepSeek", model := "gpt-4o" } }
    providers := { deepseek := { apiKey := "dsk" } } }

/-- Concrete configuration for the second conjunct of Claim C9's witness:
no explicit provider, Moonshot key, requested model `kimi-k2` (resolved by the
model-name heuristic). -/
def cfgC9kimi : Config :=
  { agents := { defaults := { model := "kimi-k2" } }
    providers := { moonshot := { apiKey := "mk" } } }

/-- Witness for Claim C9 at the concrete configurations. -/
theorem c9_deepseek_rewrites_model_id_witness :
    cfgC9deepseek.modelList = [] ∧
    toLowerStr cfgC9deepseek.agents.defaults.provider = "deepseek" ∧
    cfgC9deepseek.providers.deepseek.apiKey ≠ "" ∧
    cfgC9deepseek.agents.defaults.model ≠ "deepseek-chat" ∧
    cfgC9deepseek.agents.defaults.model ≠ "deepseek-reasoner" ∧
    cfgC9kimi.modelList = [] ∧
    toLowerStr cfgC9kimi.agents.defaults.provider ≠ "deepseek" ∧
    CreateProvider [] cfgC9deepseek =
      .ok (.http (NewHTTPProvider cfgC9deepseek.providers.deepseek.apiKey
            (defaultIfEmpty cfgC9deepseek.providers.deepseek.apiBase "https://api.deepseek.com/v1") ""),
           "deepseek-chat") ∧
    ("kimi-k2" = cfgC9kimi.agents.defaults.model) :=
  ⟨rfl, by decide, by decide, by decide, by decide, rfl, by decide,
   (c9_deepseek_rewrites_model_id [] [] cfgC9deepseek cfgC9kimi
      (.http (NewHTTPProvider "mk" "https://api.moonshot.cn/v1" "")) "kimi-k2"
      rfl (by decide) (by decide) (by decide) (by decide) rfl (by decide)).1,
   (c9_deepseek_rewrites_model_id [] [] cfgC9deepseek cfgC9kimi
      (.http (NewHTTPProvider "mk" "https://api.moonshot.cn/v1" "")) "kimi-k2"
      rfl (by decide) (by decide) (by decide) (by decide) rfl (by decide)).2 (by rfl)⟩

/-! ## Claim C7: the protocol identifier parser -/

theorem splitFirstSlash_some {l p m : List Char} (h : splitFirstSlash l = some (p, m)) :
    l = p ++ '/' :: m ∧ '/' ∉ p := by
  induction l generalizing p m with
  | nil => simp [splitFirstSlash] at h
  | cons c cs ih =>
    by_cases hc : c = '/'
    · subst hc
      simp [splitFirstSlash] at h
      obtain ⟨hp, hm⟩ := h
      subst hp; subst hm
      simp
    · rw [splitFirstSlash, if_neg hc] at h
      cases hsp : splitFirstSlash cs with
      | none => rw [hsp] at h; simp at h
      | some pm =>
        obtain ⟨p1, m1⟩ := pm
        rw [hsp] at h
        simp at h
        obtain ⟨hp, hm⟩ := h
        obtain ⟨hl, hnp⟩ := ih hsp
        subst hm
        constructor
        · rw [← hp]; simp [hl]
        · rw [← hp]
          intro hmem
          rcases List.mem_cons.mp hmem with h1 | h2
          · exact hc h1.symm
          · exact hnp h2

theorem splitFirstSlash_none {l : List Char} (h : splitFirstSlash l = none) : '/' ∉ l := by
  induction l with
  | nil => simp
  | cons c cs ih =>
    by_cases hc : c = '/'
    · subst hc; simp [splitFirstSlash] at h
    · rw [splitFirstSlash, if_neg hc] at h
      cases hsp : splitFirstSlash cs with
      | none =>
        intro hmem
        rcases List.mem_cons.mp hmem with h1 | h2
        · exact hc h1.symm
        · exact ih hsp h2
      | some pm => rw [hsp] at h; rcases pm with ⟨a, b⟩; simp at h

/-- Claim C7 (amended): `ExtractProtocol` is total, and splits the
whitespace-trimmed input: when the trimmed input contains `'/'`, the protocol
tag is its prefix before the first separator (it contains no `'/'` itself) and
the model id is the remainder; when it contains no `'/'`, the protocol is the
default family `"openai"` and the model id is the trimmed input. -/
theorem c7_extract_protocol_on_trimmed (s p m : String) (h : ExtractProtocol s = (p, m)) :
    ('/' ∈ (trimStr s).data → trimStr s = p ++ "/" ++ m ∧ '/' ∉ p.data) ∧
    ('/' ∉ (trimStr s).data → p = "openai" ∧ m = trimStr s) := by
  rw [ExtractProtocol] at h
  cases hsp : splitFirstSlash (trimStr s).data with
  | some pm =>
    obtain ⟨pl, ml⟩ := pm
    rw [hsp] at h
    simp at h
    obtain ⟨hp, hm⟩ := h
    obtain ⟨hl, hnp⟩ := splitFirstSlash_some hsp
    constructor
    · intro _
      constructor
      · apply String.ext
        simp [String.data_append, ← hp, ← hm]
        exact hl
      · rw [← hp]; exact hnp
    · intro hns
      exact absurd (hl ▸ (by simp : '/' ∈ pl ++ '/' :: ml)) hns
  | none =>
    rw [hsp] at h
    simp at h
    obtain ⟨hp, hm⟩ := h
    constructor
    · intro hin
      exact absurd hin (splitFirstSlash_none hsp)
    · intro _
      exact ⟨hp.symm, hm.symm⟩

/-- Counterexample for Claim C7 as stated: for the input `"a/b "` (which
contains a separator) the claim requires the model id to be the remainder of
the input after the first separator, `"b "`, but the parser trims before
splitting and returns `"b"`. -/
theorem c7_extract_protocol_counterexample :
    ExtractProtocol "a/b " = ("a", "b") ∧ ("a", "b") ≠ (("a" : String), ("b " : String)) := by
  decide

/-- Witness for Claim C7's amended theorem at the input `" groq/llama "`. -/
theorem c7_extract_protocol_witness :
    ExtractProtocol " groq/llama " = ("groq", "llama") ∧
    '/' ∈ (trimStr " groq/llama ").data ∧
    (trimStr " groq/llama " = "groq" ++ "/" ++ "llama" ∧ '/' ∉ ("groq" : String).data) :=
  ⟨by decide, by decide,
   (c7_extract_protocol_on_trimmed " groq/llama " "groq" "llama" (by decide)).1 (by decide)⟩

/-! ## Claims C1-C3: route-table resolution -/

/-- Claim C1 (amended): for a route-table entry with protocol tag `anthropic`
and auth-method `oauth` or `token`, resolution bypasses the HTTP path and
returns the Claude SDK adapter constructed from the entry's own API key field;
the stored credential is never consulted (the result is the same for every
store, including an empty one) and a missing stored credential causes no
error.  The stored-credential lookup with the "run auth login" error exists
only on the legacy (non-route-table) path. -/
theorem c1_route_anthropic_oauth_uses_entry_key (store : AuthStore) (cfg : Config)
    (mc : ModelConfig) (mid : String)
    (hne : cfg.modelList ≠ [])
    (hmc : Config.GetModelConfig cfg cfg.agents.defaults.model = some mc)
    (hproto : ExtractProtocol mc.model = ("anthropic", mid))
    (hauth : mc.authMethod = "oauth" ∨ mc.authMethod = "token") :
    CreateProvider store cfg = .ok (NewClaudeProvider mc.apiKey, mid) := by
  have hm0 : mc.model ≠ "" := by
    intro h0
    rw [h0, (rfl : ExtractProtocol "" = ("openai", ""))] at hproto
    have hoa : ("openai" : String) = "anthropic" := congrArg Prod.fst hproto
    exact absurd hoa (by decide)
  have hp1 : (ExtractProtocol mc.model).1 = "anthropic" := by rw [hproto]
  have hp2 : (ExtractProtocol mc.model).2 = mid := by rw [hproto]
  simp only [CreateProvider]
  rw [if_pos (List.length_pos.mpr hne), hmc]
  simp only [CreateProviderFromConfig]
  rw [if_neg hm0, hp1, hp2]
  rw [if_neg (by decide : ¬("anthropic" : String) ∈ httpProtocols)]
  rw [if_pos (rfl : ("anthropic" : String) = "anthropic")]
  rw [if_pos hauth]

/-- Configuration refuting Claim C1 as stated: a route-table entry with
protocol `anthropic` and auth-method `oauth`, resolved against an empty
credential store. -/
def cfgC1 : Config :=
  { agents := { defaults := { model := "claude-sonnet" } }
    modelList := [{ modelName := "claude-sonnet", model := "anthropic/claude-3-sonnet",
                    apiKey := "sk-test", authMethod := "oauth" }] }

/-- Counterexample for Claim C1 as stated: with an empty credential store (no
stored OAuth credential at all), resolving `cfgC1` does not fail with an
authenticate error — it succeeds, and the adapter carries the entry's API key
field rather than any stored credential. -/
theorem c1_route_anthropic_oauth_counterexample :
    CreateProvider [] cfgC1 = .ok (NewClaudeProvider "sk-test", "claude-3-sonnet") := by
  rfl

/-- Configuration for Claim C1's witness (auth-method `token`). -/
def cfgC1w : Config :=
  { agents := { defaults := { model := "my-claude" } }
    modelList := [{ modelName := "my-claude", model := "anthropic/claude-3-opus",
                    apiKey := "tok-1", authMethod := "token" }] }

/-- Witness for Claim C1's amended theorem at `cfgC1w` with a one-entry store. -/
theorem c1_route_anthropic_oauth_witness :
    cfgC1w.modelList ≠ [] ∧
    CreateProvider [("anthropic", { accessToken := "stored" })] cfgC1w =
      .ok (NewClaudeProvider "tok-1", "claude-3-opus") :=
  ⟨by decide,
   c1_route_anthropic_oauth_uses_entry_key [("anthropic", { accessToken := "stored" })] cfgC1w
     { modelName := "my-claude", model := "anthropic/claude-3-opus",
       apiKey := "tok-1", authMethod := "token" } "claude-3-opus"
     (by decide) (by decide) (by decide) (Or.inr rfl)⟩

/-- Claim C2: when the route table is non-empty and contains a matching entry,
resolution is determined by that entry alone — the result is independent of
the credential store and of every legacy per-family provider field (first
conjunct: two configurations agreeing on route table and agent defaults but
with arbitrary different providers fields and stores resolve identically, to
the wrapped `CreateProviderFromConfig` of the matched entry); the legacy
surface is consulted only when the route table is empty or has no matching
entry (second conjunct). -/
theorem c2_route_table_precedence :
    (∀ (storeA storeB : AuthStore) (cfgA cfgB : Config) (mc : ModelConfig),
      cfgA.modelList = cfgB.modelList →
      cfgA.agents = cfgB.agents →
      cfgB.modelList ≠ [] →
      Config.GetModelConfig cfgB cfgB.agents.defaults.model = some mc →
      CreateProvider storeA cfgA =
        (match CreateProviderFromConfig (some mc) with
         | .error e => .error ("failed to create provider from model_list: " ++ e)
         | .ok r => .ok r) ∧
      CreateProvider storeA cfgA = CreateProvider storeB cfgB) ∧
    (∀ (store : AuthStore) (cfg : Config),
      (cfg.modelList = [] ∨ Config.GetModelConfig cfg cfg.agents.defaults.model = none) →
      CreateProvider store cfg = createProviderLegacy store cfg cfg.agents.defaults.model) := by
  constructor
  · intro storeA storeB cfgA cfgB mc hml hag hne hmc
    have hmodel : cfgA.agents.defaults.model = cfgB.agents.defaults.model := by rw [hag]
    have hlen : cfgB.modelList.length > 0 := List.length_pos.mpr hne
    have hlenA : cfgA.modelList.length > 0 := by rw [hml]; exact hlen
    have hmcA : Config.GetModelConfig cfgA cfgA.agents.defaults.model = some mc := by
      rw [Config.GetModelConfig, hml, hmodel]
      rw [Config.GetModelConfig] at hmc
      exact hmc
    constructor
    · simp only [CreateProvider]
      rw [if_pos hlenA, hmcA]
    · simp only [CreateProvider]
      rw [if_pos hlenA, if_pos hlen, hmcA, hmc]
  · intro store cfg h
    rcases h with hml | hmc
    · simp only [CreateProvider, hml, List.length_nil]
      rw [if_neg (by decide : ¬(0:Nat) > 0)]
    · simp only [CreateProvider]
      by_cases hlen : cfg.modelList.length > 0
      · rw [if_pos hlen, hmc]
      · rw [if_neg hlen]

/-- Route-table configuration for Claim C2's witness: the entry matches by
logical name, and the legacy providers surface is populated with a different
family (groq) which must be ignored. -/
def cfgC2A : Config :=
  { agents := { defaults := { model := "fast" } }
    providers := { groq := { apiKey := "legacy-groq-key" } }
    modelList := [{ modelName := "fast", model := "openai/gpt-4o", apiKey := "rk" }] }

/-- The same configuration with empty legacy providers fields. -/
def cfgC2B : Config :=
  { agents := { defaults := { model := "fast" } }
    modelList := [{ modelName := "fast", model := "openai/gpt-4o", apiKey := "rk" }] }

/-- Legacy configuration for Claim C2's witness (empty route table). -/
def cfgC2legacy : Config :=
  { agents := { defaults := { model := "kimi-k2" } }
    providers := { moonshot := { apiKey := "mk" } } }

/-- Witness for Claim C2 at concrete configurations. -/
theorem c2_route_table_precedence_witness :
    (cfgC2A.modelList = cfgC2B.modelList ∧ cfgC2A.agents = cfgC2B.agents ∧
     cfgC2B.modelList ≠ [] ∧
     CreateProvider [] cfgC2A =
       (match CreateProviderFromConfig
           (some { modelName := "fast", model := "openai/gpt-4o", apiKey := "rk" }) with
        | .error e => .error ("failed to create provider from model_list: " ++ e)
        | .ok r => .ok r) ∧
     CreateProvider [] cfgC2A = CreateProvider [("openai", { accessToken := "t" })] cfgC2B) ∧
    (cfgC2legacy.modelList = [] ∧
     CreateProvider [] cfgC2legacy =
       createProviderLegacy [] cfgC2legacy cfgC2legacy.agents.defaults.model) :=
  ⟨⟨rfl, rfl, by decide,
    (c2_route_table_precedence.1 [] [("openai", { accessToken := "t" })] cfgC2A cfgC2B
      { modelName := "fast", model := "openai/gpt-4o", apiKey := "rk" }
      rfl rfl (by decide) (by decide)).1,
    (c2_route_table_precedence.1 [] [("openai", { accessToken := "t" })] cfgC2A cfgC2B
      { modelName := "fast", model := "openai/gpt-4o", apiKey := "rk" }
      rfl rfl (by decide) (by decide)).2⟩,
   ⟨rfl, c2_route_table_precedence.2 [] cfgC2legacy (Or.inl rfl)⟩⟩

/-- Claim C3: a matching route-table entry whose protocol tag is an
HTTP-compatible family with both API key and base URL empty makes the whole
resolution fail with the wrapped route-table error — the error produced by the
route step itself — rather than falling through to the legacy-provider step or
the model-name heuristic. -/
theorem c3_route_http_missing_key_base (store : AuthStore) (cfg : Config) (mc : ModelConfig)
    (hne : cfg.modelList ≠ [])
    (hmc : Config.GetModelConfig cfg cfg.agents.defaults.model = some mc)
    (hproto : (ExtractProtocol mc.model).1 ∈ httpProtocols)
    (hkey : mc.apiKey = "") (hbase : mc.apiBase = "") :
    CreateProvider store cfg =
      .error ("failed to create provider from model_list: " ++
        (if mc.model = "" then "model is required"
         else "api_key or api_base is required for HTTP-based protocol \"" ++
           (ExtractProtocol mc.model).1 ++ "\"")) := by
  simp only [CreateProvider]
  rw [if_pos (List.length_pos.mpr hne), hmc]
  simp only [CreateProviderFromConfig]
  by_cases hm0 : mc.model = ""
  · rw [if_pos hm0, if_pos hm0]
  · rw [if_neg hm0, if_neg hm0]
    rw [if_pos hproto, if_pos ⟨hkey, hbase⟩]

/-- Route-table configuration for Claim C3's witness: the matching entry names
the HTTP family `groq` but has neither key nor base URL, while a legacy groq
key and an OpenRouter catch-all key are available and must not be used. -/
def cfgC3 : Config :=
  { agents := { defaults := { model := "fast" } }
    providers := { groq := { apiKey := "legacy-groq-key" }
                   openrouter := { apiKey := "catch-all" } }
    modelList := [{ modelName := "fast", model := "groq/llama-3.1-70b" }] }

/-- Witness for Claim C3 at `cfgC3`. -/
theorem c3_route_http_missing_key_base_witness :
    cfgC3.modelList ≠ [] ∧
    CreateProvider [] cfgC3 =
      .error "failed to create provider from model_list: api_key or api_base is required for HTTP-based protocol \"groq\"" :=
  ⟨by decide,
   (c3_route_http_missing_key_base [] cfgC3
      { modelName := "fast", model := "groq/llama-3.1-70b" }
      (by decide) (by decide) (by decide) rfl rfl).trans (by rfl)⟩

/-! ## Claim C10: the empty-key final check and the bedrock exemption -/

/-- Claim C10: after the provider-selection steps, resolution fails with the
"no API key configured" error whenever the resolved API key is empty — except
that a `bedrock/`-prefixed model string is exempt and resolves to an HTTP
adapter with an empty key as long as a base URL was resolved. -/
theorem c10_empty_key_bedrock_exemption (b px m1 m2 : String)
    (h1 : ¬ hasPrefixStr m1 "bedrock/") (h2 : hasPrefixStr m2 "bedrock/") (hb : b ≠ "") :
    finalize "" b px m1 = .error ("no API key configured for provider (model: " ++ m1 ++ ")") ∧
    finalize "" b px m2 = .ok (.http (NewHTTPProvider "" b px), m2) := by
  constructor
  · rw [finalize, if_pos ⟨rfl, h1⟩]
  · rw [finalize, if_neg (fun hc => hc.2 h2), if_neg hb]

/-- Witness for Claim C10 at concrete model strings and base URL. -/
theorem c10_empty_key_bedrock_exemption_witness :
    ¬ hasPrefixStr "gpt-4o" "bedrock/" ∧
    hasPrefixStr "bedrock/anthropic.claude-v2" "bedrock/" ∧
    finalize "" "https://bedrock.example/v1" "" "gpt-4o" =
      .error "no API key configured for provider (model: gpt-4o)" ∧
    finalize "" "https://bedrock.example/v1" "" "bedrock/anthropic.claude-v2" =
      .ok (.http (NewHTTPProvider "" "https://bedrock.example/v1" ""), "bedrock/anthropic.claude-v2") :=
  ⟨by decide, by decide,
   ((c10_empty_key_bedrock_exemption "https://bedrock.example/v1" "" "gpt-4o"
       "bedrock/anthropic.claude-v2" (by decide) (by decide) (by decide)).1).trans (by rfl),
   (c10_empty_key_bedrock_exemption "https://bedrock.example/v1" "" "gpt-4o"
       "bedrock/anthropic.claude-v2" (by decide) (by decide) (by decide)).2⟩

/-! ## Claim C4: refresh failure is a soft failure -/

/-- Claim C4: for a stored credential in `needs_refresh` state with a refresh
token, a failed token-refresh exchange leaves the store unchanged (the same
store value is returned), the previously stored credential is returned, and
the overall call does not fail. -/
theorem c4_refresh_failure_returns_stale (refresh : AuthCredential → Option AuthCredential)
    (now : Int) (store : AuthStore) (family : String) (cred : AuthCredential)
    (hget : GetCredential store family = some cred)
    (hnr : cred.NeedsRefresh now = true)
    (hrt : cred.refreshToken ≠ "")
    (hfail : refresh cred = none) :
    getUsableCredential refresh now store family = (store, .ok cred) := by
  simp only [getUsableCredential, hget]
  rw [if_pos ⟨hnr, hrt⟩]
  simp only [hfail]

/-- Stored credential for Claim C4's witness: expires 2 minutes after `now`
(refresh window 5 minutes), with a refresh token. -/
def c4cred : AuthCredential :=
  { provider := "google-antigravity", accessToken := "at-1", refreshToken := "rt-1",
    expiresAt := 1120, authMethod := "oauth" }

/-- Store for Claim C4's witness. -/
def c4store : AuthStore := [("google-antigravity", c4cred)]

/-- Witness for Claim C4 with an always-failing refresh exchange at time 1000. -/
theorem c4_refresh_failure_returns_stale_witness :
    GetCredential c4store "google-antigravity" = some c4cred ∧
    c4cred.NeedsRefresh 1000 = true ∧
    c4cred.refreshToken ≠ "" ∧
    getUsableCredential (fun _ => none) 1000 c4store "google-antigravity" =
      (c4store, .ok c4cred) :=
  ⟨by decide, by decide, by decide,
   c4_refresh_failure_returns_stale (fun _ => none) 1000 c4store "google-antigravity" c4cred
     (by decide) (by decide) (by decide) rfl⟩

/-! ## Claims C5, C6, C8: the HTTP chat adapter -/

/-- Claim C5: a chat call that receives a wire response with a non-2xx status
fails with the transport error carrying exactly the status code and the raw
response body — for every decoded body whatsoever, so the body is never
(even partially) parsed into a result. -/
theorem c5_non2xx_transport_error (p : HTTPProvider) (messages : List Message)
    (tools : List ToolDefinition) (model : String) (options : ChatOptions) (resp : WireResponse)
    (hbase : p.apiBase ≠ "")
    (hstatus : ¬ (200 ≤ resp.status ∧ resp.status ≤ 299)) :
    HTTPProvider.Chat p messages tools model options resp =
      .error (apiFailureMessage resp.status resp.rawBody) := by
  have h200 : resp.status ≠ 200 := by
    intro h
    exact hstatus ⟨le_of_eq h.symm, by omega⟩
  simp only [HTTPProvider.Chat]
  rw [if_neg hbase, if_pos h200]

/-- The HTTP adapter used by the chat-claim witnesses. -/
def pChat : HTTPProvider := { apiKey := "k", apiBase := "https://api.example/v1", proxy := "" }

/-- The wire response for Claim C5's witness: a 500 whose body decodes fine. -/
def c5resp : WireResponse :=
  { status := 500, rawBody := "boom",
    decoded := some { choices := [{ finishReason := "length" }] } }

/-- Witness for Claim C5: a 500 response whose body decodes fine is still
rejected with the transport error, untouched by the parser. -/
theorem c5_non2xx_transport_error_witness :
    pChat.apiBase ≠ "" ∧
    ¬ (200 ≤ c5resp.status ∧ c5resp.status ≤ 299) ∧
    HTTPProvider.Chat pChat [] [] "gpt-4o" {} c5resp =
      .error "API request failed:\n  Status: 500\n  Body:   boom" :=
  ⟨by decide, by decide,
   (c5_non2xx_transport_error pChat [] [] "gpt-4o" {} c5resp
      (by decide) (by decide)).trans (by rfl)⟩

/-- Claim C6: for the chat call with model string `groq/openai/gpt-oss-120b`,
the composed wire request's model field is `openai/gpt-oss-120b` — the `groq`
family segment is stripped and the rest of the model string kept unchanged. -/
theorem c6_groq_prefix_stripped (messages : List Message) (tools : List ToolDefinition)
    (options : ChatOptions) :
    (buildChatRequest messages tools "groq/openai/gpt-oss-120b" options).model
      = "openai/gpt-oss-120b" := rfl

/-- Claim C8: a wire response with status 200 whose decoded envelope has an
empty choices list yields a successful result with empty content and finish
reason `stop`, not an error. -/
theorem c8_empty_choices_stop (p : HTTPProvider) (messages : List Message)
    (tools : List ToolDefinition) (model : String) (options : ChatOptions)
    (resp : WireResponse) (r : ApiResponse)
    (hbase : p.apiBase ≠ "")
    (hstatus : resp.status = 200)
    (hdec : resp.decoded = some r)
    (hchoices : r.choices = []) :
    HTTPProvider.Chat p messages tools model options resp =
      .ok { content := "", toolCalls := [], finishReason := "stop", usage := none } := by
  simp only [HTTPProvider.Chat]
  rw [if_neg hbase, if_neg (fun h => h hstatus)]
  simp only [HTTPProvider.parseResponse, hdec, hchoices]

/-- The decoded envelope of Claim C8's witness response. -/
def c8env : ApiResponse := { choices := [], usage := some { totalTokens := 3 } }

/-- The wire response for Claim C8's witness: status 200, empty choices. -/
def c8resp : WireResponse :=
  { status := 200, rawBody := "empty-choices body", decoded := some c8env }

/-- Witness for Claim C8: an OK response with `choices: []` (and even a usage
record, which the empty-choices result drops) succeeds with the stop result. -/
theorem c8_empty_choices_stop_witness :
    pChat.apiBase ≠ "" ∧ c8resp.status = 200 ∧ c8env.choices = [] ∧
    HTTPProvider.Chat pChat [] [] "gpt-4o" {} c8resp =
      .ok { content := "", toolCalls := [], finishReason := "stop", usage := none } :=
  ⟨by decide, rfl, rfl,
   c8_empty_choices_stop pChat [] [] "gpt-4o" {} c8resp c8env
     (by decide) rfl rfl rfl⟩
